import Mathlib

/-!
Shallow embedding of the nlsdownload tile-download pipeline.

The repository consists of several near-identical Python scripts that
generate a grid of tile jobs, fetch each tile over HTTP (with skip /
retry logic), and paste the fetched tiles into a montage image.  The
definitions below translate the relevant functions of each script:

* `genGrid`        — the grid generation loops of `iif2.py` (main, the
                     `for x in range(0, width, tile_width)` nest) and
                     `iif.py` (same arithmetic inline);
* `fetchTile`      — `fetch_tile` of `xyz2.py` (skip check, `while retry <= 2`
                     loop, 5 second sleeps, `!` marker and `return None`);
* `consumerLoop`,
  `geojsonConsumerStep`,
  `iif2ConsumerStep`,
  `xyzConsumerStep` — the queue consumers of `geojson.py`, `iif2.py` and
                     `xyz.py` (the latter with its mis-indented write);
* `downloadTiles`  — `download_tiles` of `xyz2.py` (`asyncio.gather` over
                     one `fetch_tile` task per job);
* `gatherOut`      — the result buffer of `asyncio.gather`: slots are
                     filled in completion order, the list is returned in
                     submission order;
* `montageXyzTry`, `montageXyz2`, `montageIif2`
                   — the montage loops of `xyz.py` (try/except per tile),
                     `xyz2.py` (`if tile:` plus try/except) and `iif2.py`
                     (no exception handling);
* `nlsPool`        — the multiprocessing worker pool of `nls-download.py`
                     (a worker dies on `assert resp.status == 200`);
* `tile_filename`  — the `tile_filename` helper shared by `xyz.py`,
                     `xyz2.py`, `iif2.py` and `geojson.py`.

HTTP traffic is modelled by a response oracle `Nat → Response` giving the
response of the n-th attempt; the destination file is modelled as
`Option (List Nat)` (`none` = does not exist, `some bytes` = exists with
those bytes).  Side effects are recorded as an explicit event trace.
-/

/-- Pixel/grid tile descriptor: canvas offset `(x, y)` and size `(w, h)`.
Corresponds to the `tile` dictionaries built in the scripts' `main`. -/
structure Tile where
  x : Nat
  y : Nat
  w : Nat
  h : Nat
deriving DecidableEq, Repr

/-- HTTP response: status code and body bytes (modelled as `List Nat`). -/
structure Response where
  status_code : Nat
  content : List Nat
deriving DecidableEq, Repr

/-- Observable side effects of a worker: an HTTP GET (tagged with the
retry counter at which it was issued), a sleep of a number of seconds, a
file write of the given bytes, a single-character status marker written
to stderr, or a `queue.task_done()` call. -/
inductive Ev where
  | get (retry : Nat)
  | sleep (secs : Nat)
  | write (content : List Nat)
  | marker (c : Char)
  | taskDone
deriving DecidableEq, Repr

/-- Number of HTTP GET events in a trace. -/
def getCount (evs : List Ev) : Nat :=
  (evs.filter fun e => match e with | .get _ => true | _ => false).length

/-- Total seconds slept in a trace. -/
def sleepTotal (evs : List Ev) : Nat :=
  (evs.map fun e => match e with | .sleep s => s | _ => 0).sum

/-- The bodies written to the destination file, in order. -/
def writesOf (evs : List Ev) : List (List Nat) :=
  evs.filterMap fun e => match e with | .write c => some c | _ => none

/-- Number of `task_done` events in a trace. -/
def taskDoneCount (evs : List Ev) : Nat :=
  (evs.filter fun e => match e with | .taskDone => true | _ => false).length

/-- Terminal state of a job, per the spec's `FetchOutcome.status`. -/
inductive Outcome where
  | skipped
  | succeeded
  | failed
deriving DecidableEq, Repr

/-- Python `tile["file"].exists() and tile["file"].stat().st_size > 0`
on the modelled file state. -/
def fileNonEmpty : Option (List Nat) → Bool
  | none => false
  | some c => 0 < c.length

/-- Python `range(0, stop, step)` for `step > 0`: the multiples of `step`
below `stop`; `(stop + step - 1) / step` is the number of elements. -/
def pyRange (stop step : Nat) : List Nat :=
  (List.range ((stop + step - 1) / step)).map (· * step)

/-- Grid generation of `iif2.py` `main` (and, with the same arithmetic,
`iif.py` `main`): for `x in range(0, W, tw)`, `y in range(0, H, th)`,
a tile at canvas offset `(x, y)` whose size is clipped to the canvas:
`this_tile_width = min(tile_width, image_data["width"] - x)` and
likewise for the height. -/
def genGrid (W H tw th : Nat) : List Tile :=
  (pyRange W tw).flatMap fun x =>
    (pyRange H th).map fun y =>
      { x := x, y := y, w := min tw (W - x), h := min th (H - y) }

/-- The footprint of tile `t` contains pixel `(px, py)`. -/
def covers (t : Tile) (px py : Nat) : Prop :=
  t.x ≤ px ∧ px < t.x + t.w ∧ t.y ≤ py ∧ py < t.y + t.h

instance (t : Tile) (px py : Nat) : Decidable (covers t px py) := by
  unfold covers; infer_instance

/-- The retry loop of `fetch_tile` in `xyz2.py`:
`while retry <= 2:` issue a GET; on status 200 write the marker
(`#` on the first try, `*` otherwise) and the body, then `break`;
otherwise `retry += 1; await asyncio.sleep(5)`.  When the loop condition
fails (`retry = 3`) the `while`'s `else:` writes `!` and the function
returns `None`.  `fuel = 3 - retry` counts the iterations still allowed;
the returned Bool is true iff the loop exited via `break` (success). -/
def fetchTileLoop (resp : Nat → Response) : Nat → Nat → List Ev × Bool
  | _, 0 => ([Ev.marker '!'], false)
  | retry, fuel + 1 =>
    let r := resp retry
    if r.status_code == 200 then
      ([Ev.get retry, Ev.marker (if retry == 0 then '#' else '*'),
        Ev.write r.content], true)
    else
      let rest := fetchTileLoop resp (retry + 1) fuel
      (Ev.get retry :: Ev.sleep 5 :: rest.1, rest.2)

/-- The non-skip branch of `fetch_tile` (`xyz2.py`): run the retry loop
from `retry = 0`; success yields `Succeeded`, exhaustion yields
`Failed`. -/
def fetchTileBody (resp : Nat → Response) : List Ev × Outcome :=
  let p := fetchTileLoop resp 0 3
  (p.1, if p.2 then Outcome.succeeded else Outcome.failed)

/-- `fetch_tile` of `xyz2.py`: if the destination file exists and has
positive size, write the `-` marker and skip; otherwise run the retry
loop. -/
def fetchTile (fs : Option (List Nat)) (resp : Nat → Response) :
    List Ev × Outcome :=
  if fileNonEmpty fs then ([Ev.marker '-'], Outcome.skipped)
  else fetchTileBody resp

/-- The value `fetch_tile` returns for its job: the tile itself on the
skip and success paths (`return tile`), `None` on the exhausted-retries
path (the bare `return` under the `!` marker). -/
def fetchTileResult (t : Tile) (fs : Option (List Nat))
    (resp : Nat → Response) : Option Tile :=
  match (fetchTile fs resp).2 with
  | Outcome.failed => none
  | _ => some t

/-- `download_tiles` of `xyz2.py`: one `fetch_tile` task per job,
gathered in submission order.  Each job's result depends only on its own
file state and its own server responses. -/
def downloadTiles (jobs : List Tile) (fs : Tile → Option (List Nat))
    (resp : Tile → Nat → Response) : List (Option Tile) :=
  jobs.map fun t => fetchTileResult t (fs t) (resp t)

/-- The concatenated event traces of a `download_tiles` run, in job
order. -/
def downloadTilesTrace (jobs : List Tile) (fs : Tile → Option (List Nat))
    (resp : Tile → Nat → Response) : List Ev :=
  (jobs.map fun t => (fetchTile (fs t) (resp t)).1).flatten

/-- The retry loop shared by the queue consumers of `geojson.py` and
`iif2.py`: `for retry in range(2):` issue a GET; on status 200 write the
marker (`#` first try, `*` otherwise) and the body, then `break`;
otherwise write `!` and sleep 5 seconds.  `fuel` is the number of
iterations left (initially 2). -/
def consumerLoop (resp : Nat → Response) : Nat → Nat → List Ev
  | _, 0 => []
  | retry, fuel + 1 =>
    let r := resp retry
    if r.status_code == 200 then
      [Ev.get retry, Ev.marker (if retry == 0 then '#' else '*'),
       Ev.write r.content]
    else
      Ev.get retry :: Ev.marker '!' :: Ev.sleep 5 ::
        consumerLoop resp (retry + 1) fuel

/-- One iteration of `geojson.py`'s `consumer` for a dequeued tile:
`if not tile["file"].exists():` run the retry loop (the check is
existence only, not size); then `queue.task_done()` in every case. -/
def geojsonConsumerStep (fs : Option (List Nat)) (resp : Nat → Response) :
    List Ev :=
  (if fs.isSome then [] else consumerLoop resp 0 2) ++ [Ev.taskDone]

/-- One iteration of `iif2.py`'s `consumer` for a dequeued tile: the
same retry loop, but with no check of the destination file at all — the
consumer issues a GET regardless of the filesystem — then
`queue.task_done()`. -/
def iif2ConsumerStep (resp : Nat → Response) : List Ev :=
  consumerLoop resp 0 2 ++ [Ev.taskDone]

/-- One iteration of `xyz.py`'s `consumer` for a dequeued tile.  In the
source the `async with aiofiles.open(...)` write and the `break` are
indented under the `for`, not under the `if r.status_code == 200:`, so
the body is written regardless of the status and the loop always breaks
on its first iteration (the `for`'s `else:` branch — `!` marker and
sleep — is unreachable).  Hence: skip when the file exists, otherwise
exactly one GET at `retry = 0`, a `#` marker only when the status is
200, and an unconditional write of the first response's body; then
`queue.task_done()`. -/
def xyzConsumerStep (fs : Option (List Nat)) (resp : Nat → Response) :
    List Ev :=
  (if fs.isSome then []
   else
     let r := resp 0
     Ev.get 0 ::
       ((if r.status_code == 200 then [Ev.marker '#'] else []) ++
        [Ev.write r.content])) ++ [Ev.taskDone]

/-- Fate of one job in the `nls-download.py` multiprocessing pool. -/
inductive NlsFate where
  | delivered
  | crashed
  | stranded
deriving DecidableEq, Repr

/-- The worker pool of `nls-download.py`.  Each of the `w` worker
processes loops `download_queue.get()` → (skip if the file exists,
otherwise GET and `assert resp.status == 200`, write) →
`montage_queue.put(tile)`.  A non-200 response makes the `assert` raise,
killing that worker process before it puts the tile; the dead worker
never dequeues again.  The queue is FIFO, so job `k` is dequeued iff
fewer than `w` of the jobs before it failed; that fate is the same under
every schedule, which is what this function computes: `delivered` = the
tile reached the montage queue, `crashed` = the job's assert killed its
worker, `stranded` = no live worker remained to dequeue the job. -/
def nlsPool (fileExists : Nat → Bool) (status : Nat → Nat) :
    Nat → List Nat → List NlsFate
  | _, [] => []
  | 0, _ :: rest => NlsFate.stranded :: nlsPool fileExists status 0 rest
  | w + 1, j :: rest =>
    if fileExists j then
      NlsFate.delivered :: nlsPool fileExists status (w + 1) rest
    else if status j == 200 then
      NlsFate.delivered :: nlsPool fileExists status (w + 1) rest
    else
      NlsFate.crashed :: nlsPool fileExists status w rest

/-- The in-progress result buffer of `asyncio.gather`: starting from an
all-`none` buffer, each completing task (in completion order `order`)
stores its result at its submission index. -/
def gatherFill (f : Nat → α) : List Nat → List (Option α) → List (Option α)
  | [], acc => acc
  | j :: rest, acc => gatherFill f rest (acc.set j (some (f j)))

/-- The buffer `asyncio.gather` holds when it returns, given the
completion order `order` of the `n` submitted tasks (task `i` computes
`f i`). -/
def gatherOut (f : Nat → α) (n : Nat) (order : List Nat) :
    List (Option α) :=
  gatherFill f order (List.replicate n none)

/-- The montage loop of `xyz.py` `main`: `for tile in tiles:` decode and
paste inside `try: ... except: print(error)`, so a decode failure skips
just that tile.  `decode t = none` models `Image.open` raising for that
tile's file; a paste of bitmap `bm` at offset `(x, y)` is recorded as
`(x, y, bm)`. -/
def montageXyzTry (tiles : List Tile) (decode : Tile → Option α) :
    List (Nat × Nat × α) :=
  tiles.filterMap fun t => (decode t).map fun bm => (t.x, t.y, bm)

/-- The montage loop of `xyz2.py` `main`: `for tile in tiles: if tile:`
(skip the `None` results of failed fetches) then decode and paste inside
`try/except`. -/
def montageXyz2 (tiles : List (Option Tile)) (decode : Tile → Option α) :
    List (Nat × Nat × α) :=
  tiles.filterMap fun t? => t?.bind fun t =>
    (decode t).map fun bm => (t.x, t.y, bm)

/-- The montage loop of `iif2.py` `main`: `for tile in tiles:` open and
paste with no exception handling, then `montage.save(...)`.  The first
decode failure propagates, aborting the loop and skipping the save, so
the run produces no montage at all (`none`); otherwise the full paste
sequence (`some`). -/
def montageIif2 (tiles : List Tile) (decode : Tile → Option α) :
    Option (List (Nat × Nat × α)) :=
  match tiles with
  | [] => some []
  | t :: rest =>
    match decode t with
    | none => none
    | some bm => (montageIif2 rest decode).map fun l => (t.x, t.y, bm) :: l

/-- The fetch-then-assemble path of `xyz2.py` `main`, parametrised by
the completion order of the gathered `fetch_tile` tasks: task `i` (job
`jobs[i]`) computes its result independently, `gatherOut` models the
result buffer read off in submission order when `gather` returns (slots
of tasks absent from `order` are still `none`), and the montage loop
then consumes that list. -/
def runPipeline (jobs : List Tile) (fs : Tile → Option (List Nat))
    (resp : Tile → Nat → Response) (decode : Tile → Option α)
    (order : List Nat) : List (Nat × Nat × α) :=
  montageXyz2 ((gatherOut (fun i => (jobs[i]?).bind fun t =>
    fetchTileResult t (fs t) (resp t)) jobs.length order).map
      (fun o => o.getD none)) decode

/-- The numeric value of a list of decimal digit characters (via their
codepoints); a left inverse of `natDecimal`. -/
def decimalVal (ds : List Char) : Nat :=
  ds.foldl (fun a c => 10 * a + (c.toNat - 48)) 0

/-- Decimal digit character, as produced by Python's `str` / f-string
formatting of a non-negative integer (only applied to `d < 10`). -/
def natDigitChar (d : Nat) : Char :=
  match d with
  | 0 => '0' | 1 => '1' | 2 => '2' | 3 => '3' | 4 => '4'
  | 5 => '5' | 6 => '6' | 7 => '7' | 8 => '8' | _ => '9'

/-- Fuel-driven decimal rendering: one digit per step of dividing by 10.
The fuel only needs to exceed the number of digits; `natDecimal` passes
`n + 1`, which always suffices. -/
def natDecimalAux : Nat → Nat → List Char
  | 0, _ => []
  | fuel + 1, n =>
    if n < 10 then [natDigitChar n]
    else natDecimalAux fuel (n / 10) ++ [natDigitChar (n % 10)]

/-- Standard decimal rendering of a natural number, most significant
digit first — what `f"{x}"` produces in Python for a non-negative int. -/
def natDecimal (n : Nat) : List Char :=
  natDecimalAux (n + 1) n

/-- `tile_filename` of `xyz.py` / `xyz2.py` / `iif2.py` / `geojson.py`:
`f"{path}_{x}_{y}.{img_type}"`. -/
def tile_filename (path : String) (img_type : String) (x y : Nat) :
    String :=
  path ++ "_" ++ String.mk (natDecimal x) ++ "_" ++
    String.mk (natDecimal y) ++ "." ++ img_type

example : tile_filename "map" "jpg" 12 3 = "map_12_3.jpg" := by rfl
example : fetchTile (some [1]) (fun _ => ⟨500, []⟩) =
    ([Ev.marker '-'], Outcome.skipped) := by rfl
example : (fetchTile none (fun _ => ⟨500, []⟩)).1 =
    [Ev.get 0, Ev.sleep 5, Ev.get 1, Ev.sleep 5, Ev.get 2, Ev.sleep 5,
     Ev.marker '!'] := by rfl
example : genGrid 300 256 256 256 =
    [⟨0, 0, 256, 256⟩, ⟨256, 0, 44, 256⟩] := by rfl

/-! ### Helper lemmas for the grid generator -/

/-- Any natural is below the next multiple of `b` past `a / b * b`. -/
lemma lt_div_succ_mul (a b : Nat) (hb : 0 < b) : a < (a / b + 1) * b := by
  have h1 := Nat.div_add_mod a b
  have h2 := Nat.mod_lt a hb
  calc a = b * (a / b) + a % b := h1.symm
    _ < b * (a / b) + b := by omega
    _ = (a / b + 1) * b := by ring

/-- Characterisation of the length bound used by `pyRange`:
`(stop + step - 1) / step` is the count of multiples of `step` below
`stop`. -/
lemma lt_ceil_iff (k stop step : Nat) (h : 0 < step) :
    k < (stop + step - 1) / step ↔ k * step < stop := by
  have h2 : k < (stop + step - 1) / step ↔
      k * step + step ≤ stop + step - 1 := by
    rw [Nat.lt_iff_add_one_le, Nat.le_div_iff_mul_le h, add_one_mul]
  rw [h2]
  generalize k * step = m
  omega

/-- Membership in `pyRange stop step`: exactly the multiples of `step`
below `stop`. -/
lemma mem_pyRange (v stop step : Nat) (h : 0 < step) :
    v ∈ pyRange stop step ↔ (∃ k, v = k * step) ∧ v < stop := by
  unfold pyRange
  simp only [List.mem_map, List.mem_range]
  constructor
  · rintro ⟨k, hk, rfl⟩
    exact ⟨⟨k, rfl⟩, (lt_ceil_iff k stop step h).mp hk⟩
  · rintro ⟨⟨k, rfl⟩, hv⟩
    exact ⟨k, (lt_ceil_iff k stop step h).mpr hv, rfl⟩

/-- Membership in the generated grid. -/
lemma mem_genGrid (t : Tile) (W H tw th : Nat) :
    t ∈ genGrid W H tw th ↔
      ∃ x, x ∈ pyRange W tw ∧ ∃ y, y ∈ pyRange H th ∧
        t = { x := x, y := y, w := min tw (W - x), h := min th (H - y) } := by
  unfold genGrid
  simp only [List.mem_flatMap, List.mem_map]
  constructor
  · rintro ⟨x, hx, y, hy, rfl⟩
    exact ⟨x, hx, y, hy, rfl⟩
  · rintro ⟨x, hx, y, hy, rfl⟩
    exact ⟨x, hx, y, hy, rfl⟩

/-- A pixel coordinate determines the unique grid offset covering it. -/
lemma covering_offset (px v tw bound : Nat)
    (hk : ∃ k, v = k * tw) (hv : v < bound)
    (hle : v ≤ px) (hlt : px < v + min tw (bound - v)) :
    v = px / tw * tw := by
  obtain ⟨k, rfl⟩ := hk
  have hmin : min tw (bound - k * tw) ≤ tw := Nat.min_le_left _ _
  have hlt' : px < k * tw + tw := by omega
  have : px / tw = k := by
    apply Nat.div_eq_of_lt_le hle
    calc px < k * tw + tw := hlt'
      _ = (k + 1) * tw := by ring
  rw [this]

/-- C1: the grid generator of `iif2.py`/`iif.py` clips every tile to the
canvas — `w = min tw (W - x)`, `h = min th (H - y)`, so
`x + w ≤ W` and `y + h ≤ H` — and the tile footprints exactly tile the
`W × H` canvas: every canvas pixel is covered by some tile, and two
distinct tiles never cover the same pixel. -/
theorem genGrid_covers_exactly (W H tw th : Nat) (htw : 0 < tw)
    (hth : 0 < th) :
    (∀ t ∈ genGrid W H tw th,
        t.w = min tw (W - t.x) ∧ t.h = min th (H - t.y) ∧
        t.x + t.w ≤ W ∧ t.y + t.h ≤ H) ∧
    (∀ px py, px < W → py < H →
        ∃ t ∈ genGrid W H tw th, covers t px py) ∧
    (∀ t₁ ∈ genGrid W H tw th, ∀ t₂ ∈ genGrid W H tw th, t₁ ≠ t₂ →
        ∀ px py, covers t₁ px py → ¬ covers t₂ px py) := by
  refine ⟨?_, ?_, ?_⟩
  · intro t ht
    rw [mem_genGrid] at ht
    obtain ⟨x, hx, y, hy, rfl⟩ := ht
    rw [mem_pyRange _ _ _ htw] at hx
    rw [mem_pyRange _ _ _ hth] at hy
    obtain ⟨-, hxW⟩ := hx
    obtain ⟨-, hyH⟩ := hy
    refine ⟨rfl, rfl, ?_, ?_⟩
    · show x + min tw (W - x) ≤ W
      have := Nat.min_le_right tw (W - x)
      omega
    · show y + min th (H - y) ≤ H
      have := Nat.min_le_right th (H - y)
      omega
  · intro px py hpx hpy
    refine ⟨{ x := px / tw * tw, y := py / th * th,
              w := min tw (W - px / tw * tw),
              h := min th (H - py / th * th) }, ?_, ?_⟩
    · rw [mem_genGrid]
      refine ⟨px / tw * tw, ?_, py / th * th, ?_, rfl⟩
      · rw [mem_pyRange _ _ _ htw]
        exact ⟨⟨px / tw, rfl⟩, by have := Nat.div_mul_le_self px tw; omega⟩
      · rw [mem_pyRange _ _ _ hth]
        exact ⟨⟨py / th, rfl⟩, by have := Nat.div_mul_le_self py th; omega⟩
    · have hx1 : px / tw * tw ≤ px := Nat.div_mul_le_self px tw
      have hy1 : py / th * th ≤ py := Nat.div_mul_le_self py th
      have hx2 : px < (px / tw + 1) * tw := lt_div_succ_mul px tw htw
      have hy2 : py < (py / th + 1) * th := lt_div_succ_mul py th hth
      have hx3 : (px / tw + 1) * tw = px / tw * tw + tw := by ring
      have hy3 : (py / th + 1) * th = py / th * th + th := by ring
      refine ⟨hx1, ?_, hy1, ?_⟩
      · show px < px / tw * tw + min tw (W - px / tw * tw)
        rcases Nat.le_total tw (W - px / tw * tw) with h | h
        · rw [Nat.min_eq_left h]; omega
        · rw [Nat.min_eq_right h]; omega
      · show py < py / th * th + min th (H - py / th * th)
        rcases Nat.le_total th (H - py / th * th) with h | h
        · rw [Nat.min_eq_left h]; omega
        · rw [Nat.min_eq_right h]; omega
  · intro t₁ ht₁ t₂ ht₂ hne px py hc₁ hc₂
    apply hne
    rw [mem_genGrid] at ht₁ ht₂
    obtain ⟨x₁, hx₁, y₁, hy₁, rfl⟩ := ht₁
    obtain ⟨x₂, hx₂, y₂, hy₂, rfl⟩ := ht₂
    rw [mem_pyRange _ _ _ htw] at hx₁ hx₂
    rw [mem_pyRange _ _ _ hth] at hy₁ hy₂
    obtain ⟨hc₁x, hc₁x', hc₁y, hc₁y'⟩ := hc₁
    obtain ⟨hc₂x, hc₂x', hc₂y, hc₂y'⟩ := hc₂
    have ex₁ : x₁ = px / tw * tw :=
      covering_offset px x₁ tw W hx₁.1 hx₁.2 hc₁x hc₁x'
    have ex₂ : x₂ = px / tw * tw :=
      covering_offset px x₂ tw W hx₂.1 hx₂.2 hc₂x hc₂x'
    have ey₁ : y₁ = py / th * th :=
      covering_offset py y₁ th H hy₁.1 hy₁.2 hc₁y hc₁y'
    have ey₂ : y₂ = py / th * th :=
      covering_offset py y₂ th H hy₂.1 hy₂.2 hc₂y hc₂y'
    rw [ex₁, ex₂, ey₁, ey₂]

/-- Witness for `genGrid_covers_exactly` at the spec's 300-wide scenario
(canvas 300 × 256, nominal tile 256 × 256). -/
theorem genGrid_covers_exactly_witness :
    (∀ t ∈ genGrid 300 256 256 256,
        t.w = min 256 (300 - t.x) ∧ t.h = min 256 (256 - t.y) ∧
        t.x + t.w ≤ 300 ∧ t.y + t.h ≤ 256) ∧
    (∀ px py, px < 300 → py < 256 →
        ∃ t ∈ genGrid 300 256 256 256, covers t px py) ∧
    (∀ t₁ ∈ genGrid 300 256 256 256, ∀ t₂ ∈ genGrid 300 256 256 256,
        t₁ ≠ t₂ → ∀ px py, covers t₁ px py → ¬ covers t₂ px py) :=
  genGrid_covers_exactly 300 256 256 256 (by decide) (by decide)

/-! ### Retry and backoff behaviour of `fetch_tile` -/

/-- C2 counterexample, at both cited fetchers, for a server that
answers 500 with body `[9]` on every attempt and no pre-existing file.
`fetch_tile` of `xyz2.py` does make 3 GET attempts, but sleeps the
5-second backoff three times — once after each failed attempt,
including after the last — so the total backoff wait is 15 seconds, not
the claimed 2 × 5 = 10, and the final sleep follows the last attempt
rather than sitting between attempts.  The `consumer` of `xyz.py`
refutes the claim differently: its mis-indented write/`break` make it
perform exactly one GET — not 3 — with zero backoff sleeps, and it
writes the error body instead of producing a failure marker. -/
theorem fetch_retry_mismatch :
    (fetchTile none (fun _ => ⟨500, [9]⟩)).1 =
      [Ev.get 0, Ev.sleep 5, Ev.get 1, Ev.sleep 5, Ev.get 2, Ev.sleep 5,
       Ev.marker '!'] ∧
    sleepTotal (fetchTile none (fun _ => ⟨500, [9]⟩)).1 = 15 ∧
    ¬ sleepTotal (fetchTile none (fun _ => ⟨500, [9]⟩)).1 = 2 * 5 ∧
    getCount (xyzConsumerStep none (fun _ => ⟨500, [9]⟩)) = 1 ∧
    ¬ getCount (xyzConsumerStep none (fun _ => ⟨500, [9]⟩)) = 3 ∧
    sleepTotal (xyzConsumerStep none (fun _ => ⟨500, [9]⟩)) = 0 ∧
    writesOf (xyzConsumerStep none (fun _ => ⟨500, [9]⟩)) = [[9]] := by
  refine ⟨rfl, rfl, by decide, rfl, by decide, rfl, rfl⟩

/-- C2 (amended): for a job whose server returns a non-success status
on every attempt and whose destination file is absent.  `fetch_tile` of
`xyz2.py` (file absent or empty) performs exactly the GETs of attempts
0, 1, 2 (no fourth attempt), sleeps 5 seconds after each failed attempt
— including after the third, so the total backoff is 3 × 5 = 15
seconds, with the last sleep after the final attempt — and produces
exactly one `Failed` outcome.  The `consumer` of `xyz.py`, whose write
and `break` are indented outside the status check, instead performs
exactly one GET attempt with zero backoff sleeps, writes the failing
response's body, and emits no failure marker before calling
`task_done`. -/
theorem fetch_exhausted_retries (fs : Option (List Nat))
    (resp : Nat → Response) (hfs : fileNonEmpty fs = false)
    (hfail : ∀ i, i ≤ 2 → (resp i).status_code ≠ 200) :
    ((fetchTile fs resp).1 =
      [Ev.get 0, Ev.sleep 5, Ev.get 1, Ev.sleep 5, Ev.get 2, Ev.sleep 5,
       Ev.marker '!'] ∧
     (fetchTile fs resp).2 = Outcome.failed ∧
     getCount (fetchTile fs resp).1 = 3 ∧
     sleepTotal (fetchTile fs resp).1 = 15) ∧
    (xyzConsumerStep none resp =
      [Ev.get 0, Ev.write (resp 0).content, Ev.taskDone] ∧
     getCount (xyzConsumerStep none resp) = 1 ∧
     sleepTotal (xyzConsumerStep none resp) = 0) := by
  have h0 := hfail 0 (by omega)
  have h1 := hfail 1 (by omega)
  have h2 := hfail 2 (by omega)
  have htrace : fetchTile fs resp =
      ([Ev.get 0, Ev.sleep 5, Ev.get 1, Ev.sleep 5, Ev.get 2, Ev.sleep 5,
        Ev.marker '!'], Outcome.failed) := by
    unfold fetchTile
    rw [hfs]
    simp [fetchTileBody, fetchTileLoop, h0, h1, h2]
  have hcons : xyzConsumerStep none resp =
      [Ev.get 0, Ev.write (resp 0).content, Ev.taskDone] := by
    unfold xyzConsumerStep
    show (Ev.get 0 ::
        ((if (resp 0).status_code == 200 then [Ev.marker '#'] else []) ++
         [Ev.write (resp 0).content])) ++ [Ev.taskDone] = _
    rw [if_neg (by simpa using h0)]
    rfl
  rw [htrace, hcons]
  exact ⟨⟨rfl, rfl, rfl, rfl⟩, rfl, rfl, rfl⟩

/-- Witness for `fetch_exhausted_retries`: an all-503 server with no
pre-existing file. -/
theorem fetch_exhausted_retries_witness :
    ((fetchTile none (fun _ => ⟨503, [1]⟩)).1 =
      [Ev.get 0, Ev.sleep 5, Ev.get 1, Ev.sleep 5, Ev.get 2, Ev.sleep 5,
       Ev.marker '!'] ∧
     (fetchTile none (fun _ => ⟨503, [1]⟩)).2 = Outcome.failed ∧
     getCount (fetchTile none (fun _ => ⟨503, [1]⟩)).1 = 3 ∧
     sleepTotal (fetchTile none (fun _ => ⟨503, [1]⟩)).1 = 15) ∧
    (xyzConsumerStep none (fun _ => ⟨503, [1]⟩) =
      [Ev.get 0,
       Ev.write ((fun (_ : Nat) => (⟨503, [1]⟩ : Response)) 0).content,
       Ev.taskDone] ∧
     getCount (xyzConsumerStep none (fun _ => ⟨503, [1]⟩)) = 1 ∧
     sleepTotal (xyzConsumerStep none (fun _ => ⟨503, [1]⟩)) = 0) :=
  fetch_exhausted_retries none (fun _ => ⟨503, [1]⟩) (by decide)
    (fun i _ => by show (503 : Nat) ≠ 200; decide)

/-! ### Idempotent skip -/

/-- GET events distribute over trace concatenation. -/
lemma getCount_append (a b : List Ev) :
    getCount (a ++ b) = getCount a + getCount b := by
  unfold getCount
  rw [List.filter_append, List.length_append]

/-- Splitting off the first job's trace of a `download_tiles` run. -/
lemma downloadTilesTrace_cons (t : Tile) (rest : List Tile)
    (fs : Tile → Option (List Nat)) (resp : Tile → Nat → Response) :
    downloadTilesTrace (t :: rest) fs resp =
      (fetchTile (fs t) (resp t)).1 ++ downloadTilesTrace rest fs resp := by
  unfold downloadTilesTrace
  simp

/-- C3 counterexample: the queue consumer of `iif2.py` never consults
the destination file — its trace contains a GET no matter what is on
disk (here, for a server answering 200 immediately, exactly one GET),
so a job whose destination file already exists non-empty still causes
an HTTP request, not zero. -/
theorem iif2_consumer_always_requests :
    getCount (iif2ConsumerStep (fun _ => ⟨200, [1]⟩)) = 1 ∧
    ¬ getCount (iif2ConsumerStep (fun _ => ⟨200, [1]⟩)) = 0 := by
  refine ⟨rfl, by decide⟩

/-- C3 (amended): `fetch_tile` of `xyz2.py` skips — one `-` marker, no
GET, outcome `Skipped` — whenever the destination file exists and is
non-empty; consequently a second `download_tiles` run over a destination
directory in which every job's file exists non-empty performs zero HTTP
requests and yields all-`Skipped` outcomes (every result still carries
its tile).  The `iif2.py` consumer is exempt: it fetches
unconditionally, never consulting the destination file. -/
theorem fetchTile_skip_second_run (jobs : List Tile)
    (fs : Tile → Option (List Nat)) (resp : Tile → Nat → Response)
    (hfs : ∀ t ∈ jobs, fileNonEmpty (fs t) = true) :
    (∀ t ∈ jobs, fetchTile (fs t) (resp t) =
        ([Ev.marker '-'], Outcome.skipped)) ∧
    getCount (downloadTilesTrace jobs fs resp) = 0 ∧
    downloadTiles jobs fs resp = jobs.map some := by
  have hskip : ∀ t ∈ jobs, fetchTile (fs t) (resp t) =
      ([Ev.marker '-'], Outcome.skipped) := by
    intro t ht
    unfold fetchTile
    rw [hfs t ht]
    simp
  refine ⟨hskip, ?_, ?_⟩
  · clear hfs
    induction jobs with
    | nil => rfl
    | cons t rest ih =>
      rw [downloadTilesTrace_cons, getCount_append,
        hskip t (List.mem_cons_self t rest),
        ih (fun u hu => hskip u (List.mem_cons_of_mem t hu))]
      rfl
  · clear hfs
    induction jobs with
    | nil => rfl
    | cons t rest ih =>
      unfold downloadTiles at ih ⊢
      simp only [List.map_cons, List.cons.injEq]
      refine ⟨?_, ih (fun u hu => hskip u (List.mem_cons_of_mem t hu))⟩
      unfold fetchTileResult
      rw [hskip t (List.mem_cons_self t rest)]

/-- Witness for `fetchTile_skip_second_run`: a two-job batch whose files
both exist with one byte. -/
theorem fetchTile_skip_second_run_witness :
    (∀ t ∈ [(⟨0, 0, 2, 2⟩ : Tile), ⟨2, 0, 2, 2⟩],
        fetchTile ((fun _ => some [7]) t) ((fun _ _ => ⟨200, [1]⟩) t) =
          ([Ev.marker '-'], Outcome.skipped)) ∧
    getCount (downloadTilesTrace [⟨0, 0, 2, 2⟩, ⟨2, 0, 2, 2⟩]
      (fun _ => some [7]) (fun _ _ => ⟨200, [1]⟩)) = 0 ∧
    downloadTiles [⟨0, 0, 2, 2⟩, ⟨2, 0, 2, 2⟩] (fun _ => some [7])
        (fun _ _ => ⟨200, [1]⟩) =
      ([⟨0, 0, 2, 2⟩, ⟨2, 0, 2, 2⟩] : List Tile).map some :=
  fetchTile_skip_second_run [⟨0, 0, 2, 2⟩, ⟨2, 0, 2, 2⟩]
    (fun _ => some [7]) (fun _ _ => ⟨200, [1]⟩) (fun _ _ => rfl)

/-! ### File-write policy of the consumers -/

/-- C4 counterexample, both directions of the claimed iff.  First: in
`xyz.py`'s consumer the file write sits outside the status check, so
with no pre-existing file and a first response of status 500 with body
`[9, 9]`, the consumer writes that error body to the destination (and
emits no success marker).  Second: in `geojson.py`'s consumer the
success test is `status_code == 200` exactly, so a 206 response — a 2xx
success status per the claim — produces no write at all. -/
theorem consumer_write_mismatch :
    writesOf (xyzConsumerStep none (fun _ => ⟨500, [9, 9]⟩)) = [[9, 9]] ∧
    writesOf (geojsonConsumerStep none (fun _ => ⟨206, [9, 9]⟩)) = [] := by
  refine ⟨rfl, rfl⟩

/-- C4 (amended): per-consumer write policy.  On the skip path neither
consumer touches the destination file (no write, hence no truncation of
an existing file).  With no pre-existing file, `geojson.py`'s consumer
writes at most one file per job, and writes exactly the body of the
first attempt whose status equals 200 (nothing when both attempts
fail); `xyz.py`'s consumer instead writes exactly one file — the first
response's body — regardless of its status. -/
theorem consumer_write_policy (c : List Nat) (resp : Nat → Response) :
    writesOf (xyzConsumerStep (some c) resp) = [] ∧
    writesOf (geojsonConsumerStep (some c) resp) = [] ∧
    (writesOf (geojsonConsumerStep none resp)).length ≤ 1 ∧
    ((resp 0).status_code = 200 →
      writesOf (geojsonConsumerStep none resp) = [(resp 0).content]) ∧
    ((resp 0).status_code ≠ 200 → (resp 1).status_code = 200 →
      writesOf (geojsonConsumerStep none resp) = [(resp 1).content]) ∧
    ((resp 0).status_code ≠ 200 → (resp 1).status_code ≠ 200 →
      writesOf (geojsonConsumerStep none resp) = []) ∧
    writesOf (xyzConsumerStep none resp) = [(resp 0).content] := by
  refine ⟨rfl, rfl, ?_, ?_, ?_, ?_, ?_⟩
  · by_cases h0 : (resp 0).status_code = 200
    · simp [geojsonConsumerStep, consumerLoop, writesOf, h0]
    · by_cases h1 : (resp 1).status_code = 200 <;>
        simp [geojsonConsumerStep, consumerLoop, writesOf, h0, h1]
  · intro h0
    simp [geojsonConsumerStep, consumerLoop, writesOf, h0]
  · intro h0 h1
    simp [geojsonConsumerStep, consumerLoop, writesOf, h0, h1]
  · intro h0 h1
    simp [geojsonConsumerStep, consumerLoop, writesOf, h0, h1]
  · by_cases h0 : (resp 0).status_code = 200 <;>
      simp [xyzConsumerStep, writesOf, h0]

/-- Witness for `consumer_write_policy`: a server that answers 404 then
200. -/
theorem consumer_write_policy_witness :
    writesOf (xyzConsumerStep (some [7])
      (fun i => if i = 0 then ⟨404, [3]⟩ else ⟨200, [4]⟩)) = [] ∧
    writesOf (geojsonConsumerStep (some [7])
      (fun i => if i = 0 then ⟨404, [3]⟩ else ⟨200, [4]⟩)) = [] ∧
    (writesOf (geojsonConsumerStep none
      (fun i => if i = 0 then ⟨404, [3]⟩ else ⟨200, [4]⟩))).length ≤ 1 ∧
    (((fun i => if i = 0 then (⟨404, [3]⟩ : Response) else ⟨200, [4]⟩) 0).status_code = 200 →
      writesOf (geojsonConsumerStep none
          (fun i => if i = 0 then ⟨404, [3]⟩ else ⟨200, [4]⟩)) =
        [((fun i => if i = 0 then (⟨404, [3]⟩ : Response) else ⟨200, [4]⟩) 0).content]) ∧
    (((fun i => if i = 0 then (⟨404, [3]⟩ : Response) else ⟨200, [4]⟩) 0).status_code ≠ 200 →
      ((fun i => if i = 0 then (⟨404, [3]⟩ : Response) else ⟨200, [4]⟩) 1).status_code = 200 →
      writesOf (geojsonConsumerStep none
          (fun i => if i = 0 then ⟨404, [3]⟩ else ⟨200, [4]⟩)) =
        [((fun i => if i = 0 then (⟨404, [3]⟩ : Response) else ⟨200, [4]⟩) 1).content]) ∧
    (((fun i => if i = 0 then (⟨404, [3]⟩ : Response) else ⟨200, [4]⟩) 0).status_code ≠ 200 →
      ((fun i => if i = 0 then (⟨404, [3]⟩ : Response) else ⟨200, [4]⟩) 1).status_code ≠ 200 →
      writesOf (geojsonConsumerStep none
          (fun i => if i = 0 then ⟨404, [3]⟩ else ⟨200, [4]⟩)) = []) ∧
    writesOf (xyzConsumerStep none
        (fun i => if i = 0 then ⟨404, [3]⟩ else ⟨200, [4]⟩)) =
      [((fun i => if i = 0 then (⟨404, [3]⟩ : Response) else ⟨200, [4]⟩) 0).content] :=
  consumer_write_policy [7] (fun i => if i = 0 then ⟨404, [3]⟩ else ⟨200, [4]⟩)

/-! ### Failure isolation across the worker pools -/

/-- C5 counterexample: in `nls-download.py` each permanently failing job
kills the worker process that took it (`assert resp.status == 200`).
With the script's 4 worker processes and a 5-job batch whose first four
jobs always get status 500, all four workers die and the fifth job —
whose fetch would succeed with status 200 — is never dequeued: it
reaches no terminal outcome, so a sibling's failure did prevent a
succeeding job from completing. -/
theorem nls_pool_strands_succeeding_job :
    nlsPool (fun _ => false) (fun j => if j = 4 then 200 else 500) 4
        [0, 1, 2, 3, 4] =
      [NlsFate.crashed, NlsFate.crashed, NlsFate.crashed, NlsFate.crashed,
       NlsFate.stranded] ∧
    ¬ nlsPool (fun _ => false) (fun j => if j = 4 then 200 else 500) 4
        [0, 1, 2, 3, 4] =
      [NlsFate.crashed, NlsFate.crashed, NlsFate.crashed, NlsFate.crashed,
       NlsFate.delivered] := by
  refine ⟨rfl, by decide⟩

/-- C5 (amended): the `asyncio.gather` pool of `xyz2.py`
(`download_tiles`) does isolate failures: the result slot of any job `t`
depends only on `t`'s own file state and `t`'s own server responses —
changing every other job's environment changes nothing for `t` — and a
job with no pre-existing file whose first response is 200 reaches
`Succeeded` (its slot carries the tile) no matter how the sibling jobs
fail.  The `nls-download.py` pool does not have this property. -/
theorem gather_pool_isolation (jobs : List Tile) (t : Tile)
    (fs fs' : Tile → Option (List Nat)) (resp resp' : Tile → Nat → Response)
    (hfs : fs t = fs' t) (hr : resp t = resp' t) :
    (∀ i : Nat, jobs[i]? = some t →
        (downloadTiles jobs fs resp)[i]? =
          (downloadTiles jobs fs' resp')[i]?) ∧
    (fs t = none → (resp t 0).status_code = 200 →
      ∀ i : Nat, jobs[i]? = some t →
        (downloadTiles jobs fs resp)[i]? = some (some t)) := by
  constructor
  · intro i hi
    unfold downloadTiles
    rw [List.getElem?_map, List.getElem?_map, hi]
    simp only [Option.map_some']
    rw [hfs, hr]
  · intro hnone h200 i hi
    unfold downloadTiles
    rw [List.getElem?_map, hi]
    simp only [Option.map_some']
    have : fetchTileResult t (fs t) (resp t) = some t := by
      unfold fetchTileResult fetchTile
      rw [hnone]
      show (match (fetchTileBody (resp t)).2 with
            | Outcome.failed => none
            | _ => some t) = some t
      unfold fetchTileBody fetchTileLoop
      simp [h200]
    rw [this]

/-- Witness for `gather_pool_isolation`: a two-job batch where the
sibling job's server always fails while job `t`'s succeeds. -/
theorem gather_pool_isolation_witness :
    (∀ i : Nat, ([⟨0, 0, 1, 1⟩, ⟨1, 0, 1, 1⟩] : List Tile)[i]? =
        some ⟨1, 0, 1, 1⟩ →
      (downloadTiles [⟨0, 0, 1, 1⟩, ⟨1, 0, 1, 1⟩] (fun _ => none)
          (fun u _ => if u = ⟨1, 0, 1, 1⟩ then ⟨200, [1]⟩ else ⟨500, []⟩))[i]? =
        (downloadTiles [⟨0, 0, 1, 1⟩, ⟨1, 0, 1, 1⟩] (fun _ => none)
          (fun u _ => if u = ⟨1, 0, 1, 1⟩ then ⟨200, [1]⟩ else ⟨404, []⟩))[i]?) ∧
    ((fun (_ : Tile) => (none : Option (List Nat))) ⟨1, 0, 1, 1⟩ = none →
      ((fun u (_ : Nat) => if u = (⟨1, 0, 1, 1⟩ : Tile) then (⟨200, [1]⟩ : Response) else ⟨500, []⟩)
          ⟨1, 0, 1, 1⟩ 0).status_code = 200 →
      ∀ i : Nat, ([⟨0, 0, 1, 1⟩, ⟨1, 0, 1, 1⟩] : List Tile)[i]? =
          some ⟨1, 0, 1, 1⟩ →
        (downloadTiles [⟨0, 0, 1, 1⟩, ⟨1, 0, 1, 1⟩] (fun _ => none)
          (fun u _ => if u = ⟨1, 0, 1, 1⟩ then ⟨200, [1]⟩ else ⟨500, []⟩))[i]? =
          some (some ⟨1, 0, 1, 1⟩)) :=
  gather_pool_isolation [⟨0, 0, 1, 1⟩, ⟨1, 0, 1, 1⟩] ⟨1, 0, 1, 1⟩
    (fun _ => none) (fun _ => none)
    (fun u _ => if u = ⟨1, 0, 1, 1⟩ then ⟨200, [1]⟩ else ⟨500, []⟩)
    (fun u _ => if u = ⟨1, 0, 1, 1⟩ then ⟨200, [1]⟩ else ⟨404, []⟩)
    rfl (by simp)

/-! ### Completion barrier and result identity -/

/-- C6 counterexample: `fetch_tile` of `xyz2.py` returns `None` on the
exhausted-retries path, so the gathered result of a failed job carries
no `TileJob` at all.  Concretely: a two-job batch with no pre-existing
files, where the first job's server always answers 500 and the second's
answers 200, gathers to `[None, tile₂]` — the failed slot is `None`,
not an outcome carrying its originating tile. -/
theorem failed_outcome_carries_no_job :
    downloadTiles [⟨0, 0, 1, 1⟩, ⟨1, 0, 1, 1⟩] (fun _ => none)
        (fun u _ => if u = ⟨0, 0, 1, 1⟩ then ⟨500, []⟩ else ⟨200, [1]⟩) =
      [none, some ⟨1, 0, 1, 1⟩] ∧
    ¬ (downloadTiles [⟨0, 0, 1, 1⟩, ⟨1, 0, 1, 1⟩] (fun _ => none)
        (fun u _ => if u = ⟨0, 0, 1, 1⟩ then ⟨500, []⟩ else ⟨200, [1]⟩))[0]? =
      some (some ⟨0, 0, 1, 1⟩) := by
  refine ⟨by decide, by decide⟩

/-- C6 (amended): `download_tiles` (the `asyncio.gather` barrier of
`xyz2.py`) returns one result slot per submitted job, in generation
order — slot `i` is a pure function of job `i` alone.  A slot carries
its originating tile exactly when the job did not fail, and is `None`
exactly when the job failed, so failed results can be re-associated with
their job only positionally, not by the carried value. -/
theorem gather_results_positional (jobs : List Tile)
    (fs : Tile → Option (List Nat)) (resp : Tile → Nat → Response) :
    (downloadTiles jobs fs resp).length = jobs.length ∧
    (∀ i : Nat, (downloadTiles jobs fs resp)[i]? =
        (jobs[i]?).map fun t => fetchTileResult t (fs t) (resp t)) ∧
    (∀ i : Nat, ∀ t, jobs[i]? = some t →
      (((downloadTiles jobs fs resp)[i]? = some (some t)) ↔
          ¬ (fetchTile (fs t) (resp t)).2 = Outcome.failed) ∧
      (((downloadTiles jobs fs resp)[i]? = some none) ↔
          (fetchTile (fs t) (resp t)).2 = Outcome.failed)) := by
  refine ⟨List.length_map _ _, ?_, ?_⟩
  · intro i
    unfold downloadTiles
    rw [List.getElem?_map]
  · intro i t hi
    unfold downloadTiles
    rw [List.getElem?_map, hi]
    simp only [Option.map_some']
    unfold fetchTileResult
    rcases houtcome : (fetchTile (fs t) (resp t)).2 with _ | _ | _ <;>
      simp [houtcome]

/-- Witness for `gather_results_positional`: the two-job batch of
`failed_outcome_carries_no_job`. -/
theorem gather_results_positional_witness :
    (downloadTiles [⟨0, 0, 1, 1⟩, ⟨1, 0, 1, 1⟩] (fun _ => none)
        (fun u _ => if u = ⟨0, 0, 1, 1⟩ then ⟨500, []⟩ else ⟨200, [1]⟩)).length =
      ([⟨0, 0, 1, 1⟩, ⟨1, 0, 1, 1⟩] : List Tile).length ∧
    (∀ i : Nat, (downloadTiles [⟨0, 0, 1, 1⟩, ⟨1, 0, 1, 1⟩] (fun _ => none)
        (fun u _ => if u = ⟨0, 0, 1, 1⟩ then ⟨500, []⟩ else ⟨200, [1]⟩))[i]? =
        ((([⟨0, 0, 1, 1⟩, ⟨1, 0, 1, 1⟩] : List Tile)[i]?).map fun t =>
          fetchTileResult t ((fun _ => none) t)
            ((fun u (_ : Nat) => if u = (⟨0, 0, 1, 1⟩ : Tile) then (⟨500, []⟩ : Response) else ⟨200, [1]⟩) t))) ∧
    (∀ i : Nat, ∀ t, ([⟨0, 0, 1, 1⟩, ⟨1, 0, 1, 1⟩] : List Tile)[i]? = some t →
      (((downloadTiles [⟨0, 0, 1, 1⟩, ⟨1, 0, 1, 1⟩] (fun _ => none)
          (fun u _ => if u = ⟨0, 0, 1, 1⟩ then ⟨500, []⟩ else ⟨200, [1]⟩))[i]? =
            some (some t)) ↔
          ¬ (fetchTile ((fun _ => none) t)
              ((fun u (_ : Nat) => if u = (⟨0, 0, 1, 1⟩ : Tile) then (⟨500, []⟩ : Response) else ⟨200, [1]⟩) t)).2 =
            Outcome.failed) ∧
      (((downloadTiles [⟨0, 0, 1, 1⟩, ⟨1, 0, 1, 1⟩] (fun _ => none)
          (fun u _ => if u = ⟨0, 0, 1, 1⟩ then ⟨500, []⟩ else ⟨200, [1]⟩))[i]? =
            some none) ↔
          (fetchTile ((fun _ => none) t)
              ((fun u (_ : Nat) => if u = (⟨0, 0, 1, 1⟩ : Tile) then (⟨500, []⟩ : Response) else ⟨200, [1]⟩) t)).2 =
            Outcome.failed)) :=
  gather_results_positional [⟨0, 0, 1, 1⟩, ⟨1, 0, 1, 1⟩] (fun _ => none)
    (fun u _ => if u = ⟨0, 0, 1, 1⟩ then ⟨500, []⟩ else ⟨200, [1]⟩)

/-! ### Assembly determinism and completion-order independence -/

/-- Effect of the gather buffer fill on a single slot: a slot in
`order` holds its task's result (all writes to a slot carry the same
value), a slot outside `order` is untouched. -/
lemma gatherFill_getElem (f : Nat → α) (i : Nat) :
    ∀ (order : List Nat) (acc : List (Option α)),
      (gatherFill f order acc)[i]? =
        if i ∈ order then
          (if i < acc.length then some (some (f i)) else none)
        else acc[i]? := by
  intro order
  induction order with
  | nil => intro acc; simp [gatherFill]
  | cons j rest ih =>
    intro acc
    show (gatherFill f rest (acc.set j (some (f j))))[i]? = _
    rw [ih, List.length_set]
    by_cases hmem : i ∈ rest
    · rw [if_pos hmem, if_pos (List.mem_cons_of_mem j hmem)]
    · rw [if_neg hmem]
      by_cases hij : i = j
      · subst hij
        rw [List.getElem?_set, if_pos rfl,
          if_pos (List.mem_cons_self i rest)]
      · have hni : ¬ i ∈ j :: rest := by
          intro hmm
          rcases List.mem_cons.mp hmm with h | h
          · exact hij h
          · exact hmem h
        rw [if_neg hni, List.getElem?_set, if_neg fun h => hij h.symm]

/-- When the completion order is a permutation of the task indices, the
gather buffer at return time holds every task's result, in submission
order. -/
lemma gatherOut_perm (f : Nat → α) (n : Nat) (order : List Nat)
    (h : order.Perm (List.range n)) :
    gatherOut f n order = (List.range n).map fun i => some (f i) := by
  apply List.ext_getElem?
  intro i
  unfold gatherOut
  rw [gatherFill_getElem]
  have hmem : i ∈ order ↔ i < n := by
    rw [h.mem_iff, List.mem_range]
  by_cases hi : i < n
  · rw [if_pos (hmem.mpr hi)]
    rw [List.length_replicate, if_pos hi, List.getElem?_map,
      List.getElem?_range hi]
    rfl
  · rw [if_neg (fun hmm => hi (hmem.mp hmm))]
    rw [List.getElem?_replicate, if_neg hi, List.getElem?_map]
    have : (List.range n)[i]? = none := by
      rw [List.getElem?_eq_none]
      simpa using Nat.le_of_not_lt hi
    rw [this]
    rfl

/-- Under a complete completion order, the gather buffer read by the
montage equals the generation-ordered `download_tiles` result list. -/
lemma gather_unwrap (jobs : List Tile) (fs : Tile → Option (List Nat))
    (resp : Tile → Nat → Response) (order : List Nat)
    (h : order.Perm (List.range jobs.length)) :
    (gatherOut (fun i => (jobs[i]?).bind fun t =>
        fetchTileResult t (fs t) (resp t)) jobs.length order).map
      (fun o => o.getD none) = downloadTiles jobs fs resp := by
  rw [gatherOut_perm _ _ _ h]
  apply List.ext_getElem?
  intro i
  unfold downloadTiles
  rw [List.getElem?_map, List.getElem?_map, List.getElem?_map]
  by_cases hi : i < jobs.length
  · have hj : jobs[i]? = some jobs[i] := List.getElem?_eq_getElem hi
    rw [List.getElem?_range hi, hj]
    simp
    rw [hj]
    rfl
  · have h1 : (List.range jobs.length)[i]? = none := by
      rw [List.getElem?_eq_none_iff]
      simpa using Nat.le_of_not_lt hi
    have h2 : jobs[i]? = none := by
      rw [List.getElem?_eq_none_iff]
      exact Nat.le_of_not_lt hi
    rw [h1, h2]
    rfl

/-- C7: the assembly of `xyz2.py` is deterministic and independent of
fetch completion order: for any two completion orders of the gathered
tasks, the montage paste sequence is identical, and it equals the paste
sequence obtained by processing the jobs in their original generation
order (`asyncio.gather` returns results in submission order, and the
montage loop iterates that list). -/
theorem assemble_completion_order_independent (jobs : List Tile)
    (fs : Tile → Option (List Nat)) (resp : Tile → Nat → Response)
    (decode : Tile → Option α) (order order' : List Nat)
    (h : order.Perm (List.range jobs.length))
    (h' : order'.Perm (List.range jobs.length)) :
    runPipeline jobs fs resp decode order =
      runPipeline jobs fs resp decode order' ∧
    runPipeline jobs fs resp decode order =
      montageXyz2 (downloadTiles jobs fs resp) decode := by
  have e : ∀ o, o.Perm (List.range jobs.length) →
      runPipeline jobs fs resp decode o =
        montageXyz2 (downloadTiles jobs fs resp) decode := by
    intro o ho
    unfold runPipeline
    rw [gather_unwrap jobs fs resp o ho]
  exact ⟨(e order h).trans (e order' h').symm, e order h⟩

/-- Witness for `assemble_completion_order_independent`: two jobs whose
fetches complete in reversed order versus submission order. -/
theorem assemble_completion_order_independent_witness :
    runPipeline [⟨0, 0, 1, 1⟩, ⟨1, 0, 1, 1⟩] (fun _ => none)
        (fun _ _ => ⟨200, [1]⟩) (fun t => some t.x) [1, 0] =
      runPipeline [⟨0, 0, 1, 1⟩, ⟨1, 0, 1, 1⟩] (fun _ => none)
        (fun _ _ => ⟨200, [1]⟩) (fun t => some t.x) [0, 1] ∧
    runPipeline [⟨0, 0, 1, 1⟩, ⟨1, 0, 1, 1⟩] (fun _ => none)
        (fun _ _ => ⟨200, [1]⟩) (fun t => some t.x) [1, 0] =
      montageXyz2 (downloadTiles [⟨0, 0, 1, 1⟩, ⟨1, 0, 1, 1⟩]
        (fun _ => none) (fun _ _ => ⟨200, [1]⟩)) (fun t => some t.x) :=
  assemble_completion_order_independent [⟨0, 0, 1, 1⟩, ⟨1, 0, 1, 1⟩]
    (fun _ => none) (fun _ _ => ⟨200, [1]⟩) (fun t => some t.x)
    [1, 0] [0, 1] (by decide) (by decide)

/-! ### Montage assembly error handling -/

/-- C8 counterexample: the montage loop of `iif2.py` has no try/except,
so a decode failure on the first tile aborts the whole assembly — the
second, perfectly decodable tile is never pasted and the canvas is
never saved (`none`), instead of degrading only the failing tile. -/
theorem iif2_montage_aborts_on_decode_failure :
    montageIif2 [(⟨0, 0, 1, 1⟩ : Tile), ⟨1, 0, 1, 1⟩]
        (fun t => if t = ⟨0, 0, 1, 1⟩ then none else some t.x) = none ∧
    (fun t => if t = (⟨0, 0, 1, 1⟩ : Tile) then none else some t.x)
        (⟨1, 0, 1, 1⟩ : Tile) = some 1 ∧
    ¬ montageIif2 [(⟨0, 0, 1, 1⟩ : Tile), ⟨1, 0, 1, 1⟩]
        (fun t => if t = ⟨0, 0, 1, 1⟩ then none else some t.x) =
      some [(1, 0, 1)] := by
  refine ⟨rfl, by decide, by decide⟩

/-- C8 (amended): the montage loop of `xyz.py` (and `xyz2.py`) catches
per-tile decode failures: every decodable tile is pasted at its offset
regardless of other tiles' failures, undecodable tiles are merely
skipped, and the loop always runs to completion so the canvas is always
saved.  The `iif2.py` (and `geojson.py`) montage loop lacks the
try/except and aborts on the first decode failure, saving nothing:
when every tile decodes
it produces the same paste sequence as `xyz.py`'s loop, and when some
tile fails to decode it produces no montage at all. -/
theorem montage_degrade_policy (tiles : List Tile)
    (decode : Tile → Option α) :
    (∀ t ∈ tiles, ∀ bm, decode t = some bm →
        (t.x, t.y, bm) ∈ montageXyzTry tiles decode) ∧
    ((∀ t ∈ tiles, (decode t).isSome) →
        montageIif2 tiles decode = some (montageXyzTry tiles decode)) ∧
    ((∃ t ∈ tiles, decode t = none) →
        montageIif2 tiles decode = none) := by
  refine ⟨?_, ?_, ?_⟩
  · intro t ht bm hbm
    unfold montageXyzTry
    rw [List.mem_filterMap]
    exact ⟨t, ht, by rw [hbm]; rfl⟩
  · intro hall
    induction tiles with
    | nil => rfl
    | cons t rest ih =>
      have ht := hall t (List.mem_cons_self t rest)
      obtain ⟨bm, hbm⟩ := Option.isSome_iff_exists.mp ht
      show montageIif2 (t :: rest) decode = _
      unfold montageIif2 montageXyzTry
      rw [hbm]
      have := ih (fun u hu => hall u (List.mem_cons_of_mem t hu))
      unfold montageXyzTry at this
      rw [this]
      simp [hbm]
  · intro hsome
    induction tiles with
    | nil =>
      obtain ⟨t, ht, -⟩ := hsome
      exact absurd ht (List.not_mem_nil t)
    | cons t rest ih =>
      obtain ⟨u, hu, hdu⟩ := hsome
      rcases List.mem_cons.mp hu with h | h
      · subst h
        show montageIif2 (u :: rest) decode = none
        unfold montageIif2
        rw [hdu]
      · show montageIif2 (t :: rest) decode = none
        unfold montageIif2
        rcases hdt : decode t with _ | bm
        · rfl
        · rw [ih ⟨u, h, hdu⟩]
          rfl

/-- Witness for `montage_degrade_policy`: two tiles, the first of which
fails to decode. -/
theorem montage_degrade_policy_witness :
    (∀ t ∈ [(⟨0, 0, 1, 1⟩ : Tile), ⟨1, 0, 1, 1⟩], ∀ bm,
        (fun u => if u = (⟨0, 0, 1, 1⟩ : Tile) then none else some u.x) t =
          some bm →
        (t.x, t.y, bm) ∈ montageXyzTry [(⟨0, 0, 1, 1⟩ : Tile), ⟨1, 0, 1, 1⟩]
          (fun u => if u = ⟨0, 0, 1, 1⟩ then none else some u.x)) ∧
    ((∀ t ∈ [(⟨0, 0, 1, 1⟩ : Tile), ⟨1, 0, 1, 1⟩],
        ((fun u => if u = (⟨0, 0, 1, 1⟩ : Tile) then none else some u.x) t).isSome) →
        montageIif2 [(⟨0, 0, 1, 1⟩ : Tile), ⟨1, 0, 1, 1⟩]
            (fun u => if u = ⟨0, 0, 1, 1⟩ then none else some u.x) =
          some (montageXyzTry [(⟨0, 0, 1, 1⟩ : Tile), ⟨1, 0, 1, 1⟩]
            (fun u => if u = ⟨0, 0, 1, 1⟩ then none else some u.x))) ∧
    ((∃ t ∈ [(⟨0, 0, 1, 1⟩ : Tile), ⟨1, 0, 1, 1⟩],
        (fun u => if u = (⟨0, 0, 1, 1⟩ : Tile) then none else some u.x) t = none) →
        montageIif2 [(⟨0, 0, 1, 1⟩ : Tile), ⟨1, 0, 1, 1⟩]
            (fun u => if u = ⟨0, 0, 1, 1⟩ then none else some u.x) = none) :=
  montage_degrade_policy [(⟨0, 0, 1, 1⟩ : Tile), ⟨1, 0, 1, 1⟩]
    (fun u => if u = ⟨0, 0, 1, 1⟩ then none else some u.x)

/-! ### Distinctness of destination filenames -/

/-- Decimal digit characters round-trip through their codepoints, and
are neither the underscore separator nor the dot of the extension. -/
lemma natDigitChar_spec (d : Nat) (hd : d < 10) :
    (natDigitChar d).toNat - 48 = d ∧ natDigitChar d ≠ '_' ∧
      natDigitChar d ≠ '.' := by
  interval_cases d <;> refine ⟨by decide, by decide, by decide⟩

/-- Appending one digit multiplies the value by ten and adds it. -/
lemma decimalVal_append_digit (a : List Char) (c : Char) :
    decimalVal (a ++ [c]) = 10 * decimalVal a + (c.toNat - 48) := by
  unfold decimalVal
  rw [List.foldl_append]
  rfl

/-- With sufficient fuel the decimal rendering evaluates back to the
number it renders. -/
lemma decimalVal_natDecimalAux :
    ∀ (fuel n : Nat), n < fuel →
      decimalVal (natDecimalAux fuel n) = n := by
  intro fuel
  induction fuel with
  | zero => intro n hn; omega
  | succ fuel ih =>
    intro n hn
    show decimalVal (if n < 10 then [natDigitChar n]
      else natDecimalAux fuel (n / 10) ++ [natDigitChar (n % 10)]) = n
    by_cases h10 : n < 10
    · rw [if_pos h10]
      have := (natDigitChar_spec n h10).1
      show 10 * 0 + ((natDigitChar n).toNat - 48) = n
      omega
    · rw [if_neg h10]
      rw [decimalVal_append_digit]
      have hdiv : n / 10 < fuel := by
        have h1 : n / 10 < n := Nat.div_lt_self (by omega) (by omega)
        omega
      rw [ih (n / 10) hdiv]
      have hmod : n % 10 < 10 := Nat.mod_lt n (by omega)
      have := (natDigitChar_spec (n % 10) hmod).1
      have := Nat.div_add_mod n 10
      omega

/-- The decimal rendering is injective (it has `decimalVal` as a left
inverse). -/
lemma natDecimal_injective (a b : Nat) (h : natDecimal a = natDecimal b) :
    a = b := by
  have ha := decimalVal_natDecimalAux (a + 1) a (by omega)
  have hb := decimalVal_natDecimalAux (b + 1) b (by omega)
  unfold natDecimal at h
  rw [h] at ha
  omega

/-- No separator characters appear among the rendered digits. -/
lemma natDecimalAux_no_sep :
    ∀ (fuel n : Nat) (c : Char), c ∈ natDecimalAux fuel n →
      c ≠ '_' ∧ c ≠ '.' := by
  intro fuel
  induction fuel with
  | zero => intro n c hc; exact absurd hc (List.not_mem_nil c)
  | succ fuel ih =>
    intro n c hc
    rw [show natDecimalAux (fuel + 1) n = if n < 10 then [natDigitChar n]
      else natDecimalAux fuel (n / 10) ++ [natDigitChar (n % 10)] from rfl]
      at hc
    by_cases h10 : n < 10
    · rw [if_pos h10] at hc
      rcases List.mem_singleton.mp hc with rfl
      exact (natDigitChar_spec n h10).2
    · rw [if_neg h10] at hc
      rcases List.mem_append.mp hc with h | h
      · exact ih (n / 10) c h
      · rcases List.mem_singleton.mp h with rfl
        exact (natDigitChar_spec (n % 10) (Nat.mod_lt n (by omega))).2

/-- Splitting a list at the first occurrence of a separator absent from
both prefixes. -/
lemma sep_split (sep : Char) :
    ∀ (a a' s s' : List Char), ¬ sep ∈ a → ¬ sep ∈ a' →
      a ++ sep :: s = a' ++ sep :: s' → a = a' ∧ s = s' := by
  intro a
  induction a with
  | nil =>
    intro a' s s' _ ha' heq
    cases a' with
    | nil =>
      refine ⟨rfl, ?_⟩
      have := List.cons.injEq .. ▸ heq
      simpa using heq
    | cons b bs =>
      exfalso
      apply ha'
      have hb : sep = b := by
        have := congrArg (fun l => l.head?) heq
        simpa using this
      rw [← hb]
      exact List.mem_cons_self sep bs
  | cons x xs ih =>
    intro a' s s' ha ha' heq
    cases a' with
    | nil =>
      exfalso
      apply ha
      have hx : x = sep := by
        have := congrArg (fun l => l.head?) heq
        simpa using this
      rw [hx]
      exact List.mem_cons_self sep xs
    | cons y ys =>
      have hxy : x = y := by
        have := congrArg (fun l => l.head?) heq
        simpa using this
      have htail : xs ++ sep :: s = ys ++ sep :: s' := by
        have := congrArg (fun l => l.tail) heq
        simpa using this
      have hxs : ¬ sep ∈ xs := fun hmm => ha (List.mem_cons_of_mem x hmm)
      have hys : ¬ sep ∈ ys := fun hmm => ha' (List.mem_cons_of_mem y hmm)
      obtain ⟨h1, h2⟩ := ih ys s s' hxs hys htail
      exact ⟨by rw [hxy, h1], h2⟩

/-- C9: `tile_filename` is injective in the tile coordinates for a fixed
path prefix and image type — distinct `(x, y)` grid coordinates always
get distinct destination filenames, so no two jobs of a grid share a
destination file. -/
theorem tile_filename_injective (path img_type : String) (x y x' y' : Nat)
    (h : tile_filename path img_type x y =
      tile_filename path img_type x' y') :
    x = x' ∧ y = y' := by
  have hd : (tile_filename path img_type x y).data =
      (tile_filename path img_type x' y').data := congrArg String.data h
  unfold tile_filename at hd
  simp only [String.data_append, List.append_assoc] at hd
  simp only [List.singleton_append, List.cons_append] at hd
  have hd1 := List.append_cancel_left hd
  have hd2 : natDecimal x ++ '_' :: (natDecimal y ++ '.' :: img_type.data) =
      natDecimal x' ++ '_' :: (natDecimal y' ++ '.' :: img_type.data) := by
    have := List.cons.injEq .. ▸ hd1
    simpa using hd1
  have hx := sep_split '_' (natDecimal x) (natDecimal x') _ _
    (fun hmm => (natDecimalAux_no_sep _ _ '_' hmm).1 rfl)
    (fun hmm => (natDecimalAux_no_sep _ _ '_' hmm).1 rfl) hd2
  have hy := sep_split '.' (natDecimal y) (natDecimal y') _ _
    (fun hmm => (natDecimalAux_no_sep _ _ '.' hmm).2 rfl)
    (fun hmm => (natDecimalAux_no_sep _ _ '.' hmm).2 rfl) hx.2
  exact ⟨natDecimal_injective x x' hx.1, natDecimal_injective y y' hy.1⟩

/-- Witness for `tile_filename_injective` at concrete coordinates. -/
theorem tile_filename_injective_witness : 12 = 12 ∧ 3 = 3 :=
  tile_filename_injective "map" "jpg" 12 3 12 3 rfl

/-! ### The completion barrier: one task_done per dequeued job -/

/-- The consumer retry loop itself never calls `task_done`. -/
lemma consumerLoop_no_taskDone (resp : Nat → Response) :
    ∀ (fuel retry : Nat),
      taskDoneCount (consumerLoop resp retry fuel) = 0 := by
  intro fuel
  induction fuel with
  | zero => intro retry; rfl
  | succ fuel ih =>
    intro retry
    show taskDoneCount (if (resp retry).status_code == 200 then _ else _) = 0
    by_cases h : (resp retry).status_code == 200
    · rw [if_pos h]
      rfl
    · rw [if_neg h]
      show taskDoneCount (Ev.get retry :: Ev.marker '!' :: Ev.sleep 5 ::
        consumerLoop resp (retry + 1) fuel) = 0
      unfold taskDoneCount at ih ⊢
      simp only [List.filter]
      exact ih (retry + 1)

/-- `task_done` events distribute over trace concatenation. -/
lemma taskDoneCount_append (a b : List Ev) :
    taskDoneCount (a ++ b) = taskDoneCount a + taskDoneCount b := by
  unfold taskDoneCount
  rw [List.filter_append, List.length_append]

/-- C10: every queue consumer calls `task_done` exactly once per
dequeued job, on the skip path, the success path and the
exhausted-retries path alike — in particular also when every attempt
returns a non-success status — so over a finite batch the number of
`task_done` calls equals the number of jobs and `queue.join()`'s
completion barrier is reached. -/
theorem consumer_task_done_once (fs : Option (List Nat))
    (resp : Nat → Response) (jobs : List Tile)
    (fsm : Tile → Option (List Nat)) (respm : Tile → Nat → Response) :
    taskDoneCount (xyzConsumerStep fs resp) = 1 ∧
    taskDoneCount (geojsonConsumerStep fs resp) = 1 ∧
    taskDoneCount (iif2ConsumerStep resp) = 1 ∧
    (jobs.map fun t =>
        taskDoneCount (geojsonConsumerStep (fsm t) (respm t))).sum =
      jobs.length := by
  have hloop := consumerLoop_no_taskDone
  have hgeo : ∀ (fs' : Option (List Nat)) (resp' : Nat → Response),
      taskDoneCount (geojsonConsumerStep fs' resp') = 1 := by
    intro fs' resp'
    unfold geojsonConsumerStep
    rw [taskDoneCount_append]
    by_cases h : fs'.isSome
    · rw [if_pos h]
      rfl
    · rw [if_neg h, hloop resp' 2 0]
      rfl
  refine ⟨?_, hgeo fs resp, ?_, ?_⟩
  · unfold xyzConsumerStep
    rw [taskDoneCount_append]
    by_cases h : fs.isSome
    · rw [if_pos h]
      rfl
    · rw [if_neg h]
      show taskDoneCount (Ev.get 0 ::
          ((if (resp 0).status_code == 200 then [Ev.marker '#'] else []) ++
           [Ev.write (resp 0).content])) + taskDoneCount [Ev.taskDone] = 1
      by_cases h200 : (resp 0).status_code == 200
      · rw [if_pos h200]
        rfl
      · rw [if_neg h200]
        rfl
  · unfold iif2ConsumerStep
    rw [taskDoneCount_append, hloop resp 2 0]
    rfl
  · induction jobs with
    | nil => rfl
    | cons t rest ih =>
      simp only [List.map_cons, List.sum_cons, List.length_cons,
        hgeo (fsm t) (respm t)]
      omega
